import Mathlib

/-!
Shallow embedding of the SmartWeave contract-interaction subsystem.

Source files embedded:
- `src/src/contract-interact.ts`: `interactWrite`, `interactWriteDryRun`,
  `interactWriteDryRunCustom`, `interactRead`, `createTx`.
- `src/unnamed/part_000` (contract loader): `loadContract`,
  `createContractExecutionEnvironment`.

The flows are asynchronous JavaScript pipelines over an external ledger
client (`arweave`).  We embed them as functions into an effect type
`Eff α = Except JsErr α × List Event`: the first component is the JS
return value or a thrown exception, the second the ordered trace of
collaborator invocations (ledger-client calls, loader/state-replay calls,
handler execution).  The external collaborators' responses are supplied by
a pure environment record `Env`, so every flow is a total computable
function of its environment and arguments.
-/

namespace SmartWeave

/-- JavaScript values, as far as the interaction flows inspect them:
truthiness, strings, and opaque object payloads.  Objects are opaque and
indexed; `vObj 0` stands for the empty object literal used by the source
as a default argument value. -/
inductive JSValue where
  | vNull
  | vUndefined
  | vBool (b : Bool)
  | vNum (n : Int)
  | vStr (s : String)
  | vObj (idx : Nat)
  deriving DecidableEq, Repr

/-- JavaScript truthiness: `null`, `undefined`, `false`, `0` and `""` are
falsy, everything else (in particular every object) is truthy. -/
def truthy : JSValue → Bool
  | .vNull => false
  | .vUndefined => false
  | .vBool b => b
  | .vNum n => n != 0
  | .vStr s => s != ""
  | .vObj _ => true

/-- A name/value transaction tag (`{ name, value }` in the source). -/
structure Tag where
  name : String
  value : String
  deriving DecidableEq, Repr

/-- The fields of an arweave `Transaction` object read by this code:
`id`, `target`, `quantity`, `reward`, `data`, and the tag list built by
`addTag`.  An absent target is the empty string and the default quantity
is `"0"`, as in the arweave client. -/
structure Tx where
  id : String
  target : String
  quantity : String
  reward : String
  data : String
  tags : List Tag
  deriving DecidableEq, Repr

/-- `ContractInteraction` from `contract-step`: `{ input, caller }`. -/
structure Interaction where
  input : JSValue
  caller : JSValue
  deriving DecidableEq, Repr

/-- `ContractInteractionResult` (the `ExecutionResult` of the spec):
new state plus an arbitrary result value. -/
structure ExecResult where
  state : JSValue
  result : JSValue
  deriving DecidableEq, Repr

/-- The `block` sub-object of the dummy active transaction; the dry-run
flows set `timestamp` to `null` (the block is not mined yet). -/
structure BlockInfo where
  height : Int
  id : String
  timestamp : Option Int
  deriving DecidableEq, Repr

/-- `InteractionTx` as synthesized by the flows (`dummyActiveTx`). -/
structure InteractionTxM where
  id : String
  ownerAddress : JSValue
  recipient : String
  tags : List Tag
  feeWinston : String
  quantityWinston : String
  block : BlockInfo
  deriving DecidableEq, Repr

/-- A loaded contract record as consumed by the executor flows: its
handler, invoked by `execute(handler, interaction, state)` after the
active-transaction slot (`swGlobal._activeTx`) has been installed.  We
model the handler as a pure function of the state, the interaction and
the installed active transaction. -/
structure ContractRecord where
  run : JSValue → Interaction → InteractionTxM → ExecResult

/-- The shape of the `contractInfoParam` argument of the dry-run flows
(`any = {}` in the source): the caller passes a loaded record, passes a
falsy value such as `null`, or omits the argument, in which case the JS
default `{}` (a truthy object with no `handler` field) is used. -/
inductive ContractInfoArg where
  | emptyObj
  | nullArg
  | record (r : ContractRecord)

/-- JS truthiness of the `contractInfoParam` argument: only a falsy value
such as `null` is falsy; the default empty object is truthy. -/
def ciTruthy : ContractInfoArg → Bool
  | .nullArg => false
  | _ => true

/-- JavaScript exceptions thrown by the embedded code. -/
inductive JsErr where
  /-- `Error("Input should be a truthy value: ...")` thrown by `createTx`;
  the spec's `InvalidInputError`. -/
  | invalidInput
  /-- a `TypeError` from a property access on an object lacking the
  looked-up member (e.g. `({}).swGlobal._activeTx`). -/
  | typeError
  /-- a failed ledger fetch (`transactions.get` of an unknown id);
  the spec's `NotFoundError`. -/
  | notFound
  deriving DecidableEq, Repr

/-- Observable collaborator invocations made by the flows, in order. -/
inductive Event where
  /-- a call of the contract loader `loadContract(arweave, contractId)`. -/
  | evLoadContract (id : String)
  /-- a call of the state-replay collaborator `readContract(arweave, contractId)`. -/
  | evReadContract (id : String)
  /-- `arweave.wallets.getAddress(wallet)`. -/
  | evGetAddress
  /-- `arweave.network.getInfo()`. -/
  | evGetNetworkInfo
  /-- `arweave.createTransaction(options, wallet)`, carrying the `target`
  and `quantity` options (when attached) and the `data` option. -/
  | evCreateTransaction (target : Option String) (quantity : Option String) (data : String)
  /-- `arweave.transactions.sign(tx, wallet)`. -/
  | evSign (id : String)
  /-- `arweave.transactions.post(tx)`: the ledger submission. -/
  | evPost (id : String)
  /-- `execute(handler, interaction, state)`: the handler invocation. -/
  | evExecute (i : Interaction)
  deriving DecidableEq, Repr

/-- Result of an embedded asynchronous flow: the JS outcome (returned
value or thrown exception) together with the trace of collaborator
invocations performed before returning or throwing. -/
abbrev Eff (α : Type) : Type := Except JsErr α × List Event

/-- Return a value with an empty trace. -/
def Eff.pure {α : Type} (a : α) : Eff α := (Except.ok a, [])

/-- Sequence two effectful steps, accumulating traces; a thrown exception
short-circuits but keeps the trace produced so far. -/
def Eff.bind {α β : Type} (x : Eff α) (f : α → Eff β) : Eff β :=
  match x.1 with
  | Except.error e => (Except.error e, x.2)
  | Except.ok a => ((f a).1, x.2 ++ (f a).2)

/-- Record one collaborator invocation. -/
def Eff.emit (e : Event) : Eff Unit := (Except.ok (), [e])

/-- Throw a JS exception. -/
def Eff.fail {α : Type} (e : JsErr) : Eff α := (Except.error e, [])

/-- Responses of the external collaborators, as consumed by the
executor flows: the ledger client, the wallet, the contract loader and
the state-replay engine are pure oracles here. -/
structure Env where
  /-- the `id` of the transaction returned by `arweave.createTransaction`. -/
  newTxId : String
  /-- the `reward` of the transaction returned by `arweave.createTransaction`. -/
  newTxReward : String
  /-- the `status` of the response of `arweave.transactions.post`. -/
  postStatus : Nat
  /-- `height` from `arweave.network.getInfo()`. -/
  netHeight : Int
  /-- `current` from `arweave.network.getInfo()`. -/
  netCurrent : String
  /-- the address returned by `arweave.wallets.getAddress(wallet)`. -/
  walletAddr : String
  /-- the record returned by `loadContract(arweave, contractId)`. -/
  loadedContract : ContractRecord
  /-- the state returned by `readContract(arweave, contractId)`. -/
  readState : JSValue
  /-- host `JSON.stringify`, applied to the interaction input. -/
  stringify : JSValue → String
  /-- host predicate `+s > 0`: the JS unary-plus coercion of the string
  is a number greater than zero. -/
  plusPos : String → Bool
  /-- the nonce `Math.random().toString().slice(-4)` drawn by this call. -/
  rand4 : String

/-- The four fixed tags attached by `createTx` after the caller tags. -/
def fixedTags (contractId : String) (inputJson : String) : List Tag :=
  [⟨"App-Name", "SmartWeaveAction"⟩, ⟨"App-Version", "0.3.0"⟩,
   ⟨"Contract", contractId⟩, ⟨"Input", inputJson⟩]

/-- The `target`/`quantity` options computed by `createTx`:
`options.target` is set when `target` is a non-empty string, and
`options.quantity` is set when, additionally, `winstonQty` is truthy and
its numeric coercion is positive (`winstonQty && +winstonQty > 0`). -/
def createTxOptions (env : Env) (target winstonQty : String) : Option String × Option String :=
  if target = "" then (none, none)
  else if winstonQty != "" && env.plusPos winstonQty then (some target, some winstonQty)
  else (some target, none)

/-- The fully-tagged interaction transaction that `createTx` returns on a
truthy input: id and reward from the ledger client, target/quantity from
the options, the random nonce as data, and the caller tags followed by
the four fixed tags. -/
def builtTx (env : Env) (contractId : String) (input : JSValue) (tags : List Tag)
    (target winstonQty : String) : Tx :=
  ⟨env.newTxId, (createTxOptions env target winstonQty).1.getD "",
   (createTxOptions env target winstonQty).2.getD "0", env.newTxReward, env.rand4,
   tags ++ fixedTags contractId (env.stringify input)⟩

/-- `createTx` (`contract-interact.ts`, lines 233-271): compute the
create-transaction options (random data nonce; target and quantity when
applicable), call `arweave.createTransaction`, then throw on a falsy
input, otherwise add the caller tags and the four fixed tags, sign, and
return the transaction. -/
def createTx (env : Env) (contractId : String) (input : JSValue) (tags : List Tag)
    (target winstonQty : String) : Eff Tx :=
  Eff.bind (Eff.emit (Event.evCreateTransaction (createTxOptions env target winstonQty).1
      (createTxOptions env target winstonQty).2 env.rand4)) fun _ =>
  if truthy input then
    Eff.bind (Eff.emit (Event.evSign env.newTxId)) fun _ =>
    Eff.pure (builtTx env contractId input tags target winstonQty)
  else Eff.fail JsErr.invalidInput

/-- `interactWrite` (`contract-interact.ts`, lines 25-41): build the
interaction transaction, post it, and return `null` (modelled `none`)
unless the response status is `200`, in which case return the id. -/
def interactWrite (env : Env) (contractId : String) (input : JSValue) (tags : List Tag)
    (target winstonQty : String) : Eff (Option String) :=
  Eff.bind (createTx env contractId input tags target winstonQty) fun interactionTx =>
  Eff.bind (Eff.emit (Event.evPost interactionTx.id)) fun _ =>
  if env.postStatus != 200 then Eff.pure none else Eff.pure (some interactionTx.id)

/-- Modelled from the spec: `unpackTags` (Tag Codec, `./utils`, not under
`src/`) decodes a transaction's tags into name/value pairs; on our
transaction model the tags are already in that form. -/
def unpackTags (tx : Tx) : List Tag := tx.tags

/-- The `dummyActiveTx` object synthesized by the read and dry-run flows
from the built (or caller-supplied) transaction, the resolved caller
address, and the network's current height and block id; `timestamp` is
`null` because the block is not mined. -/
def mkDummyActiveTx (env : Env) (tx : Tx) (fromAddr : JSValue) : InteractionTxM :=
  ⟨tx.id, fromAddr, tx.target, unpackTags tx, tx.reward, tx.quantity,
   ⟨env.netHeight, env.netCurrent, none⟩⟩

/-- `contractInfoParam || await loadContract(arweave, contractId)`: the
parameter if truthy (also when it is the default `{}`), otherwise a call
of the loader. -/
def resolveContractInfo (env : Env) (contractId : String) (p : ContractInfoArg) :
    Eff ContractInfoArg :=
  if ciTruthy p then Eff.pure p
  else Eff.bind (Eff.emit (Event.evLoadContract contractId)) fun _ =>
    Eff.pure (ContractInfoArg.record env.loadedContract)

/-- `myState || await readContract(arweave, contractId)`: the parameter
if truthy (also when it is the default `{}`), otherwise a call of the
state-replay collaborator. -/
def resolveLatestState (env : Env) (contractId : String) (myState : JSValue) : Eff JSValue :=
  if truthy myState then Eff.pure myState
  else Eff.bind (Eff.emit (Event.evReadContract contractId)) fun _ =>
    Eff.pure env.readState

/-- `fromParam || await arweave.wallets.getAddress(wallet)`: the
parameter if truthy (also when it is the default `{}`), otherwise the
wallet address. -/
def resolveFrom (env : Env) (fromParam : JSValue) : Eff JSValue :=
  if truthy fromParam then Eff.pure fromParam
  else Eff.bind (Eff.emit Event.evGetAddress) fun _ =>
    Eff.pure (JSValue.vStr env.walletAddr)

/-- `contractInfo.swGlobal._activeTx = dummyActiveTx` followed by
`execute(contractInfo.handler, interaction, latestState)`.  When
`contractInfo` is not a loaded record (the empty default object or a
falsy value), the property access `contractInfo.swGlobal._activeTx`
throws a `TypeError` before the handler is reached. -/
def installAndExecute (contractInfo : ContractInfoArg) (interaction : Interaction)
    (latestState : JSValue) (activeTx : InteractionTxM) : Eff ExecResult :=
  match contractInfo with
  | ContractInfoArg.record r =>
    Eff.bind (Eff.emit (Event.evExecute interaction)) fun _ =>
    Eff.pure (r.run latestState interaction activeTx)
  | _ => Eff.fail JsErr.typeError

/-- `interactWriteDryRun` (`contract-interact.ts`, lines 58-108): resolve
the contract record, the latest state and the caller address through the
`param || fallback` pattern, build the interaction, query the network
info, build the interaction transaction via `createTx`, synthesize the
dummy active transaction, install it and execute the handler. -/
def interactWriteDryRun (env : Env) (contractId : String) (input : JSValue) (tags : List Tag)
    (target winstonQty : String) (myState fromParam : JSValue)
    (contractInfoParam : ContractInfoArg) : Eff ExecResult :=
  Eff.bind (resolveContractInfo env contractId contractInfoParam) fun contractInfo =>
  Eff.bind (resolveLatestState env contractId myState) fun latestState =>
  Eff.bind (resolveFrom env fromParam) fun fromAddr =>
  let interaction : Interaction := ⟨input, fromAddr⟩
  Eff.bind (Eff.emit Event.evGetNetworkInfo) fun _ =>
  Eff.bind (createTx env contractId input tags target winstonQty) fun tx =>
  installAndExecute contractInfo interaction latestState (mkDummyActiveTx env tx fromAddr)

/-- `interactWriteDryRunCustom` (`contract-interact.ts`, lines 122-169):
like `interactWriteDryRun`, but the transaction is supplied by the caller
(`createTx` is not called — the call is commented out in the source),
and the caller address is taken directly from `fromParam` with no
wallet-address fallback. -/
def interactWriteDryRunCustom (env : Env) (tx : Tx) (contractId : String) (input : JSValue)
    (myState fromParam : JSValue) (contractInfoParam : ContractInfoArg) : Eff ExecResult :=
  Eff.bind (resolveContractInfo env contractId contractInfoParam) fun contractInfo =>
  Eff.bind (resolveLatestState env contractId myState) fun latestState =>
  let fromAddr : JSValue := fromParam
  let interaction : Interaction := ⟨input, fromAddr⟩
  Eff.bind (Eff.emit Event.evGetNetworkInfo) fun _ =>
  installAndExecute contractInfo interaction latestState (mkDummyActiveTx env tx fromAddr)

/-- The caller address resolved by `interactRead`: the wallet address
when a wallet is supplied, the empty string otherwise. -/
def readCaller (env : Env) (wallet : Option Unit) : JSValue :=
  match wallet with
  | some _ => JSValue.vStr env.walletAddr
  | none => JSValue.vStr ""

/-- `interactRead` (`contract-interact.ts`, lines 183-231): always load
the contract and read the latest state, resolve the caller from the
wallet (or the empty string), build the interaction transaction, install
the dummy active transaction, execute the handler, and return only the
`result` field of the execution result. -/
def interactRead (env : Env) (wallet : Option Unit) (contractId : String) (input : JSValue)
    (tags : List Tag) (target winstonQty : String) : Eff JSValue :=
  Eff.bind (Eff.emit (Event.evLoadContract contractId)) fun _ =>
  let contractInfo := env.loadedContract
  Eff.bind (Eff.emit (Event.evReadContract contractId)) fun _ =>
  let latestState := env.readState
  Eff.bind (match wallet with
    | some _ => Eff.bind (Eff.emit Event.evGetAddress) fun _ =>
        Eff.pure (JSValue.vStr env.walletAddr)
    | none => Eff.pure (JSValue.vStr "")) fun fromAddr =>
  let interaction : Interaction := ⟨input, fromAddr⟩
  Eff.bind (Eff.emit Event.evGetNetworkInfo) fun _ =>
  Eff.bind (createTx env contractId input tags target winstonQty) fun tx =>
  Eff.bind (Eff.emit (Event.evExecute interaction)) fun _ =>
  Eff.pure (contractInfo.run latestState interaction (mkDummyActiveTx env tx fromAddr)).result

/-! ### Contract loader (`src/unnamed/part_000`) -/

/-- A stored ledger transaction as fetched by `arweave.transactions.get`:
its tags and its data payload (`get('data', { decode: true, string:
true })`). -/
structure StoredTx where
  tags : List Tag
  data : String
  deriving DecidableEq, Repr

/-- The ledger contents seen by the loader: a pure map from transaction
id to stored transaction; a missing id makes `transactions.get` fail. -/
structure LoaderEnv where
  txs : String → Option StoredTx

/-- Modelled from the spec: `getTag` (Tag Codec, `./utils`, not under
`src/`) extracts the value of the named tag from a transaction (first
match); for an absent tag it yields no value (the JS helper returns a
falsy non-string). -/
def getTag (tx : StoredTx) (name : String) : Option String :=
  (tx.tags.find? (fun t => t.name == name)).map Tag.value

/-- JS truthiness of a `getTag` result as used in `if (getTag(...))`:
true exactly when the tag is present with a non-empty value. -/
def tagTruthy (o : Option String) : Bool := o.getD "" != ""

/-- The record assembled by `loadContract`, without the host-evaluated
parts: the source also builds `handler` and `swGlobal` through
`createContractExecutionEnvironment`, which evaluates the contract source
text with the JS `Function` constructor and is outside this embedding. -/
structure LoadedContract where
  id : String
  contractSrc : String
  initState : String
  minFee : Option String
  contractTX : StoredTx
  deriving DecidableEq, Repr

/-- `loadContract` (`src/unnamed/part_000`, lines 14-43): fetch the
defining transaction, locate the source transaction through the
`Contract-Src` tag and fetch its payload, then resolve the initial state:
a truthy `Init-State` tag value, else the payload of the transaction
named by a truthy `Init-State-TX` tag value, else the defining
transaction's own payload. -/
def loadContract (env : LoaderEnv) (contractID : String) : Except JsErr LoadedContract :=
  match env.txs contractID with
  | none => Except.error JsErr.notFound
  | some contractTX =>
    let contractSrcTXID := (getTag contractTX "Contract-Src").getD ""
    let minFee := getTag contractTX "Min-Fee"
    match env.txs contractSrcTXID with
    | none => Except.error JsErr.notFound
    | some contractSrcTX =>
      let contractSrc := contractSrcTX.data
      let stateE : Except JsErr String :=
        if tagTruthy (getTag contractTX "Init-State") then
          Except.ok ((getTag contractTX "Init-State").getD "")
        else if tagTruthy (getTag contractTX "Init-State-TX") then
          match env.txs ((getTag contractTX "Init-State-TX").getD "") with
          | none => Except.error JsErr.notFound
          | some stateTX => Except.ok stateTX.data
        else Except.ok contractTX.data
      match stateE with
      | Except.error e => Except.error e
      | Except.ok state => Except.ok ⟨contractID, contractSrc, state, minFee, contractTX⟩

/-! ### Helper lemmas -/

@[simp]
theorem Eff.pure_def {α : Type} (a : α) : (Eff.pure a : Eff α) = (Except.ok a, []) := rfl

@[simp]
theorem Eff.emit_def (e : Event) : Eff.emit e = (Except.ok (), [e]) := rfl

@[simp]
theorem Eff.fail_def {α : Type} (e : JsErr) : (Eff.fail e : Eff α) = (Except.error e, []) := rfl

theorem Eff.mem_bind {α β : Type} {x : Eff α} {f : α → Eff β} {e : Event} :
    e ∈ (Eff.bind x f).2 ↔ e ∈ x.2 ∨ ∃ a, x.1 = Except.ok a ∧ e ∈ (f a).2 := by
  unfold Eff.bind
  cases hx : x.1 <;> simp [hx]

theorem resolveContractInfo_eq (env : Env) (cid : String) (p : ContractInfoArg) :
    resolveContractInfo env cid p =
      (Except.ok (if ciTruthy p then p else ContractInfoArg.record env.loadedContract),
       if ciTruthy p then [] else [Event.evLoadContract cid]) := by
  unfold resolveContractInfo Eff.bind Eff.emit Eff.pure
  by_cases h : ciTruthy p <;> simp [h]

theorem resolveLatestState_eq (env : Env) (cid : String) (st : JSValue) :
    resolveLatestState env cid st =
      (Except.ok (if truthy st then st else env.readState),
       if truthy st then [] else [Event.evReadContract cid]) := by
  unfold resolveLatestState Eff.bind Eff.emit Eff.pure
  by_cases h : truthy st <;> simp [h]

theorem resolveFrom_eq (env : Env) (fp : JSValue) :
    resolveFrom env fp =
      (Except.ok (if truthy fp then fp else JSValue.vStr env.walletAddr),
       if truthy fp then [] else [Event.evGetAddress]) := by
  unfold resolveFrom Eff.bind Eff.emit Eff.pure
  by_cases h : truthy fp <;> simp [h]

theorem createTx_eq (env : Env) (cid : String) (input : JSValue) (tags : List Tag)
    (tgt qty : String) :
    createTx env cid input tags tgt qty =
      (if truthy input then Except.ok (builtTx env cid input tags tgt qty)
       else Except.error JsErr.invalidInput,
       if truthy input then
         [Event.evCreateTransaction (createTxOptions env tgt qty).1
            (createTxOptions env tgt qty).2 env.rand4, Event.evSign env.newTxId]
       else
         [Event.evCreateTransaction (createTxOptions env tgt qty).1
            (createTxOptions env tgt qty).2 env.rand4]) := by
  unfold createTx Eff.bind Eff.emit Eff.pure Eff.fail
  by_cases h : truthy input <;> simp [h]

theorem installAndExecute_eq_record (r : ContractRecord) (i : Interaction)
    (st : JSValue) (atx : InteractionTxM) :
    installAndExecute (ContractInfoArg.record r) i st atx =
      (Except.ok (r.run st i atx), [Event.evExecute i]) := by
  unfold installAndExecute Eff.bind Eff.emit Eff.pure
  simp

theorem installAndExecute_no_ledger (ci : ContractInfoArg) (i : Interaction)
    (st : JSValue) (atx : InteractionTxM) (e : Event) :
    e ∈ (installAndExecute ci i st atx).2 → e = Event.evExecute i := by
  cases ci <;> simp [installAndExecute, Eff.bind, Eff.emit, Eff.pure, Eff.fail]

theorem installAndExecute_no_post (ci : ContractInfoArg) (i : Interaction)
    (st : JSValue) (atx : InteractionTxM) (id' : String) :
    Event.evPost id' ∉ (installAndExecute ci i st atx).2 := by
  intro hm
  have h := installAndExecute_no_ledger ci i st atx (Event.evPost id') hm
  simp at h

/-! ### Claim theorems -/

/-- Claim C1: neither `interactWriteDryRun` nor `interactWriteDryRunCustom`
ever invokes the ledger client's transaction-submission operation
(`arweave.transactions.post`): with any arguments, no `evPost` event
occurs in either flow's collaborator trace. -/
theorem dry_runs_never_post (env : Env) (contractId : String) (input : JSValue)
    (tags : List Tag) (target winstonQty : String) (myState fromParam : JSValue)
    (cip : ContractInfoArg) (tx : Tx) (i : String) :
    Event.evPost i ∉
      (interactWriteDryRun env contractId input tags target winstonQty
        myState fromParam cip).2 ∧
    Event.evPost i ∉
      (interactWriteDryRunCustom env tx contractId input myState fromParam cip).2 := by
  constructor
  · unfold interactWriteDryRun
    simp only [Eff.mem_bind, resolveContractInfo_eq, resolveLatestState_eq, resolveFrom_eq,
      createTx_eq, Eff.emit_def]
    by_cases h1 : ciTruthy cip <;> by_cases h2 : truthy myState <;>
      by_cases h3 : truthy fromParam <;> by_cases h4 : truthy input <;>
      simp [h1, h2, h3, h4, installAndExecute_no_post]
  · unfold interactWriteDryRunCustom
    simp only [Eff.mem_bind, resolveContractInfo_eq, resolveLatestState_eq, Eff.emit_def]
    by_cases h1 : ciTruthy cip <;> by_cases h2 : truthy myState <;>
      simp [h1, h2, installAndExecute_no_post]

/-- A concrete handler: returns the input as the result and leaves the
state unchanged. -/
def record0 : ContractRecord := ⟨fun st i _ => ⟨st, i.input⟩⟩

/-- A concrete collaborator environment for the closed theorems. -/
def env0 : Env :=
  ⟨"TXID", "1", 200, 7, "BLK", "ADDR", record0, JSValue.vObj 1,
   fun _ => "J", fun s => s == "5", "1234"⟩

/-- Claim C2, counterexample: calling `interactWrite` with the falsy
input `null` does fail with `InvalidInputError`, but the failure does not
occur before a transaction object is constructed via the ledger client —
the trace of the failed call already contains the
`arweave.createTransaction` invocation. -/
theorem interactWrite_falsy_constructs_tx_first :
    (interactWrite env0 "c" JSValue.vNull [] "" "").1 = Except.error JsErr.invalidInput ∧
    Event.evCreateTransaction none none "1234" ∈
      (interactWrite env0 "c" JSValue.vNull [] "" "").2 := by
  constructor
  · rfl
  · decide

/-- Claim C2, amended: calling the write flow with a falsy input fails
with `InvalidInputError`; the failure occurs after the transaction object
is constructed via the ledger client (`createTransaction` precedes the
validation in `createTx`), but before any tag is attached and before the
transaction is signed or submitted — the trace of the failed call is
exactly the single `createTransaction` invocation. -/
theorem interactWrite_falsy_fails_after_construction (env : Env) (cid : String)
    (input : JSValue) (tags : List Tag) (tgt qty : String)
    (h : truthy input = false) :
    (interactWrite env cid input tags tgt qty).1 = Except.error JsErr.invalidInput ∧
    (interactWrite env cid input tags tgt qty).2 =
      [Event.evCreateTransaction (createTxOptions env tgt qty).1
        (createTxOptions env tgt qty).2 env.rand4] := by
  unfold interactWrite
  rw [createTx_eq]
  simp [Eff.bind, h]

/-- Witness for `interactWrite_falsy_fails_after_construction` at the
concrete falsy input `null`. -/
theorem interactWrite_falsy_fails_after_construction_w :
    truthy JSValue.vNull = false ∧
    (interactWrite env0 "c" JSValue.vNull [] "" "").1 = Except.error JsErr.invalidInput :=
  ⟨by decide, (interactWrite_falsy_fails_after_construction env0 "c" JSValue.vNull [] "" ""
    (by decide)).1⟩

/-- Claim C3: when `interactWriteDryRun` is called without a pre-loaded
contract record, a pre-computed state, or a caller address — i.e. with
the source's default arguments `myState = {}`, `fromParam = {}`,
`contractInfoParam = {}` — the flow does NOT resolve them: because the
default empty objects are truthy, `param || fallback` short-circuits, so
`loadContract`, `readContract` and `getAddress` are all skipped (the
trace contains none of them), and the call then crashes with a
`TypeError` on the empty contract record instead of executing the
handler.  This contradicts the claim and the function's own doc comment
("This will load a contract to its latest state"). -/
theorem dry_run_default_args_skip_resolution :
    (interactWriteDryRun env0 "c" (JSValue.vStr "i") [] "" ""
      (JSValue.vObj 0) (JSValue.vObj 0) ContractInfoArg.emptyObj).2 =
      [Event.evGetNetworkInfo, Event.evCreateTransaction none none "1234",
       Event.evSign "TXID"] ∧
    (interactWriteDryRun env0 "c" (JSValue.vStr "i") [] "" ""
      (JSValue.vObj 0) (JSValue.vObj 0) ContractInfoArg.emptyObj).1 =
      Except.error JsErr.typeError := by
  constructor
  · rfl
  · rfl

/-- A defining transaction carrying an `Init-State` tag whose value is
the empty string, with its own payload `"OWN"`. -/
def storedC4main : StoredTx := ⟨[⟨"Contract-Src", "s"⟩, ⟨"Init-State", ""⟩], "OWN"⟩

/-- The source transaction referenced by `storedC4main`. -/
def storedC4src : StoredTx := ⟨[], "SRC"⟩

/-- Ledger contents for the C4 counterexample. -/
def ldEnvC4 : LoaderEnv :=
  ⟨fun id => if id = "c" then some storedC4main else
    if id = "s" then some storedC4src else none⟩

/-- Claim C4, counterexample: the defining transaction `storedC4main`
has an `Init-State` tag (its value is the empty string), yet
`loadContract` resolves the initial state to the defining transaction's
own payload `"OWN"`, not to that tag's value — because the source guards
each branch with JS truthiness (`if (getTag(contractTX, 'Init-State'))`),
and the empty string is falsy. -/
theorem loadContract_empty_init_state_tag_cex :
    getTag storedC4main "Init-State" = some "" ∧
    Except.map LoadedContract.initState (loadContract ldEnvC4 "c") = Except.ok "OWN" ∧
    ("OWN" : String) ≠ "" := by
  refine ⟨rfl, rfl, ?_⟩
  decide

/-- Claim C4, amended: `loadContract` resolves the initial state with
this priority order — if the defining transaction has an `Init-State`
tag with a non-empty value, the initial state is that tag's value;
otherwise, if it has an `Init-State-TX` tag with a non-empty value, the
initial state is the payload of the transaction that tag references;
otherwise, the initial state is the defining transaction's own payload. -/
theorem loadContract_init_state_priority (env : LoaderEnv) (cid : String)
    (r : LoadedContract) (h : loadContract env cid = Except.ok r) :
    (tagTruthy (getTag r.contractTX "Init-State") = true →
      r.initState = (getTag r.contractTX "Init-State").getD "") ∧
    (tagTruthy (getTag r.contractTX "Init-State") = false →
     tagTruthy (getTag r.contractTX "Init-State-TX") = true →
      ∃ stateTX : StoredTx,
        env.txs ((getTag r.contractTX "Init-State-TX").getD "") = some stateTX ∧
        r.initState = stateTX.data) ∧
    (tagTruthy (getTag r.contractTX "Init-State") = false →
     tagTruthy (getTag r.contractTX "Init-State-TX") = false →
      r.initState = r.contractTX.data) := by
  unfold loadContract at h
  cases hc : env.txs cid with
  | none => rw [hc] at h; exact absurd h (by simp)
  | some contractTX =>
    rw [hc] at h
    dsimp only at h
    cases hs : env.txs ((getTag contractTX "Contract-Src").getD "") with
    | none => rw [hs] at h; exact absurd h (by simp)
    | some contractSrcTX =>
      rw [hs] at h
      by_cases h1 : tagTruthy (getTag contractTX "Init-State")
      · simp only [h1, if_true] at h
        cases h
        refine ⟨fun _ => rfl, fun hf _ => absurd h1 (by simp [hf]), fun hf _ => absurd h1 (by simp [hf])⟩
      · simp only [h1, if_false] at h
        by_cases h2 : tagTruthy (getTag contractTX "Init-State-TX")
        · simp only [h2, if_true] at h
          cases hst : env.txs ((getTag contractTX "Init-State-TX").getD "") with
          | none => rw [hst] at h; exact absurd h (by simp)
          | some stateTX =>
            rw [hst] at h
            cases h
            refine ⟨fun ht => absurd ht (by simp [h1]), fun _ _ => ⟨stateTX, hst, rfl⟩,
              fun _ hf => absurd h2 (by simp [hf])⟩
        · simp only [h2, if_false] at h
          cases h
          refine ⟨fun ht => absurd ht (by simp [h1]),
            fun _ ht => absurd ht (by simp [h2]), fun _ _ => rfl⟩

/-- A defining transaction with a non-empty `Init-State` tag, for the
C4 witness. -/
def storedWmain : StoredTx := ⟨[⟨"Contract-Src", "s"⟩, ⟨"Init-State", "INIT"⟩], "OWN"⟩

/-- Ledger contents for the C4 witness. -/
def ldEnvW : LoaderEnv :=
  ⟨fun id => if id = "cw" then some storedWmain else
    if id = "s" then some storedC4src else none⟩

/-- The record `loadContract` produces on `ldEnvW`. -/
def loadedW : LoadedContract := ⟨"cw", "SRC", "INIT", none, storedWmain⟩

/-- Witness for `loadContract_init_state_priority`: on a concrete ledger
whose defining transaction carries `Init-State = "INIT"`, the load
succeeds and the first branch of the priority applies. -/
theorem loadContract_init_state_priority_w :
    loadedW.initState = (getTag loadedW.contractTX "Init-State").getD "" :=
  (loadContract_init_state_priority ldEnvW "cw" loadedW rfl).1 (by decide)

/-- Claim C5: every transaction built by `createTx` with a truthy input
carries the four fixed tags `App-Name=SmartWeaveAction`,
`App-Version=0.3.0`, `Contract=<contractId>` and
`Input=<JSON-serialization of input>`, preceded by every caller-supplied
tag, and its data payload is the small random nonce drawn for this call
(so two calls drawing distinct nonces build transactions with distinct
data even on identical arguments). -/
theorem createTx_fixed_tags_and_nonce (env : Env) (cid : String) (input : JSValue)
    (tags : List Tag) (tgt qty : String) (h : truthy input = true) :
    ∃ tx : Tx, (createTx env cid input tags tgt qty).1 = Except.ok tx ∧
      tx.tags = tags ++
        [⟨"App-Name", "SmartWeaveAction"⟩, ⟨"App-Version", "0.3.0"⟩,
         ⟨"Contract", cid⟩, ⟨"Input", env.stringify input⟩] ∧
      (∀ t ∈ tags, t ∈ tx.tags) ∧
      tx.data = env.rand4 := by
  refine ⟨builtTx env cid input tags tgt qty, ?_, rfl, ?_, rfl⟩
  · rw [createTx_eq]
    simp [h]
  · intro t ht
    simp [builtTx, fixedTags, ht]

/-- Witness for `createTx_fixed_tags_and_nonce` at a concrete truthy
input. -/
theorem createTx_fixed_tags_and_nonce_w :
    ∃ tx : Tx, (createTx env0 "c" (JSValue.vStr "x") [⟨"X", "1"⟩] "" "").1 = Except.ok tx ∧
      tx.tags = [⟨"X", "1"⟩] ++
        [⟨"App-Name", "SmartWeaveAction"⟩, ⟨"App-Version", "0.3.0"⟩,
         ⟨"Contract", "c"⟩, ⟨"Input", env0.stringify (JSValue.vStr "x")⟩] ∧
      (∀ t ∈ [(⟨"X", "1"⟩ : Tag)], t ∈ tx.tags) ∧
      tx.data = env0.rand4 :=
  createTx_fixed_tags_and_nonce env0 "c" (JSValue.vStr "x") [⟨"X", "1"⟩] "" "" (by decide)

/-- Claim C6: for a truthy input, `interactWrite` does not throw — it
returns normally in both cases — and its value is the submitted
transaction's id when the ledger submission reports status `200`, and
the null sentinel (`none`) otherwise. -/
theorem interactWrite_returns_id_or_null (env : Env) (cid : String) (input : JSValue)
    (tags : List Tag) (tgt qty : String) (h : truthy input = true) :
    (interactWrite env cid input tags tgt qty).1 =
      Except.ok (if env.postStatus = 200 then some env.newTxId else none) := by
  unfold interactWrite
  rw [createTx_eq]
  by_cases hp : env.postStatus = 200 <;> simp [Eff.bind, h, hp, builtTx]

/-- Witness for `interactWrite_returns_id_or_null` in both submission
outcomes: `env0` reports status `200`, `env1` reports status `400`. -/
def env1 : Env :=
  ⟨"TXID", "1", 400, 7, "BLK", "ADDR", record0, JSValue.vObj 1,
   fun _ => "J", fun s => s == "5", "1234"⟩

/-- Witness for `interactWrite_returns_id_or_null` at a concrete truthy
input, covering both the success status and a failure status. -/
theorem interactWrite_returns_id_or_null_w :
    (interactWrite env0 "c" (JSValue.vStr "x") [] "" "").1 = Except.ok (some "TXID") ∧
    (interactWrite env1 "c" (JSValue.vStr "x") [] "" "").1 = Except.ok none :=
  ⟨interactWrite_returns_id_or_null env0 "c" (JSValue.vStr "x") [] "" "" (by decide),
   interactWrite_returns_id_or_null env1 "c" (JSValue.vStr "x") [] "" "" (by decide)⟩

/-- Claim C7: in every `createTx` call, the `createTransaction` options
event at the head of the trace carries the computed target/quantity
attachments, and both the target and the quantity are attached exactly
when the target string is non-empty and the quantity string coerces to a
positive number (given that the host coercion of the empty string is not
positive, as `+"" = 0` in JS). -/
theorem createTx_target_quantity_attachment (env : Env) (cid : String) (input : JSValue)
    (tags : List Tag) (tgt qty : String) (hp : env.plusPos "" = false) :
    (createTx env cid input tags tgt qty).2.head? =
      some (Event.evCreateTransaction (createTxOptions env tgt qty).1
        (createTxOptions env tgt qty).2 env.rand4) ∧
    (((createTxOptions env tgt qty).1.isSome ∧ (createTxOptions env tgt qty).2.isSome) ↔
      (tgt ≠ "" ∧ env.plusPos qty = true)) := by
  constructor
  · rw [createTx_eq]
    by_cases h : truthy input <;> simp [h]
  · unfold createTxOptions
    by_cases h1 : tgt = ""
    · simp [h1]
    · by_cases h2 : qty = ""
      · simp [h1, h2, hp]
      · by_cases h3 : env.plusPos qty <;> simp [h1, h2, h3]

/-- Witness for `createTx_target_quantity_attachment` at concrete
arguments: `env0`'s coercion predicate holds exactly of `"5"`. -/
theorem createTx_target_quantity_attachment_w :
    (createTx env0 "c" (JSValue.vStr "x") [] "t" "5").2.head? =
      some (Event.evCreateTransaction (createTxOptions env0 "t" "5").1
        (createTxOptions env0 "t" "5").2 env0.rand4) ∧
    (((createTxOptions env0 "t" "5").1.isSome ∧ (createTxOptions env0 "t" "5").2.isSome) ↔
      (("t" : String) ≠ "" ∧ env0.plusPos "5" = true)) :=
  createTx_target_quantity_attachment env0 "c" (JSValue.vStr "x") [] "t" "5" (by decide)

/-- Claim C8: `interactRead` returns exactly the `result` field of the
execution result produced by the handler invocation — not the new state
and not the full execution result. -/
theorem interactRead_returns_result_field (env : Env) (w : Option Unit) (cid : String)
    (input : JSValue) (tags : List Tag) (tgt qty : String) (h : truthy input = true) :
    (interactRead env w cid input tags tgt qty).1 =
      Except.ok ((env.loadedContract.run env.readState ⟨input, readCaller env w⟩
        (mkDummyActiveTx env (builtTx env cid input tags tgt qty)
          (readCaller env w))).result) := by
  unfold interactRead
  rw [createTx_eq]
  cases w <;> simp [Eff.bind, h, readCaller]

/-- Witness for `interactRead_returns_result_field` at a concrete truthy
input: `record0` echoes the input, so the read returns it. -/
theorem interactRead_returns_result_field_w :
    (interactRead env0 (some ()) "c" (JSValue.vStr "x") [] "" "").1 =
      Except.ok ((env0.loadedContract.run env0.readState
        ⟨JSValue.vStr "x", readCaller env0 (some ())⟩
        (mkDummyActiveTx env0 (builtTx env0 "c" (JSValue.vStr "x") [] "" "")
          (readCaller env0 (some ())))).result) :=
  interactRead_returns_result_field env0 (some ()) "c" (JSValue.vStr "x") [] "" "" (by decide)

/-- Claim C10: `interactWriteDryRunCustom` performs no input-truthiness
validation — with any arguments, falsy input included, it never throws
`InvalidInputError` and never calls the ledger client's
`createTransaction` (it bypasses transaction construction entirely) —
and whenever the caller supplies a loaded contract record, the handler is
invoked with exactly the given input as the interaction input. -/
theorem dryRunCustom_skips_input_validation :
    (∀ (env : Env) (tx : Tx) (cid : String) (input st fp : JSValue)
       (cip : ContractInfoArg),
      (interactWriteDryRunCustom env tx cid input st fp cip).1 ≠
        Except.error JsErr.invalidInput ∧
      (∀ (t q : Option String) (d : String),
        Event.evCreateTransaction t q d ∉
          (interactWriteDryRunCustom env tx cid input st fp cip).2)) ∧
    (∀ (env : Env) (tx : Tx) (cid : String) (input st fp : JSValue)
       (r : ContractRecord),
      (interactWriteDryRunCustom env tx cid input st fp (ContractInfoArg.record r)).1 =
        Except.ok (r.run (if truthy st then st else env.readState) ⟨input, fp⟩
          (mkDummyActiveTx env tx fp))) := by
  constructor
  · intro env tx cid input st fp cip
    constructor
    · unfold interactWriteDryRunCustom
      simp only [resolveContractInfo_eq, resolveLatestState_eq, Eff.emit_def]
      by_cases h1 : ciTruthy cip <;> by_cases h2 : truthy st <;>
        cases cip <;>
        simp_all [Eff.bind, ciTruthy, installAndExecute, Eff.emit, Eff.pure, Eff.fail]
    · intro t q d
      unfold interactWriteDryRunCustom
      simp only [Eff.mem_bind, resolveContractInfo_eq, resolveLatestState_eq, Eff.emit_def]
      by_cases h1 : ciTruthy cip <;> by_cases h2 : truthy st <;>
        simp [h1, h2] <;>
        intro hm <;>
        have := installAndExecute_no_ledger _ _ _ _ _ hm <;>
        simp_all
  · intro env tx cid input st fp r
    unfold interactWriteDryRunCustom
    simp only [resolveContractInfo_eq, resolveLatestState_eq, Eff.emit_def]
    by_cases h2 : truthy st <;>
      simp [Eff.bind, ciTruthy, h2, installAndExecute_eq_record]

end SmartWeave
